import Mathlib

set_option linter.unusedVariables false

namespace Argus

/-!
Shallow embedding of the runtime-error monitoring and fixing core of the
Argus repository: the error taxonomy (src/types/runtime-monitoring.ts),
the Playwright monitor and its listener classification
(src/unnamed/part_000, functions monitorSandbox, setupErrorListeners,
parseErrorSource), and the file-resolution step of the fixer
(src/lib/runtime-error-fixer.ts, fixRuntimeErrors).
-/

/-- Runtime error types, from the closed union RuntimeErrorType in
src/types/runtime-monitoring.ts. -/
inductive RuntimeErrorType
  | consoleError
  | consoleWarning
  | network404
  | network500
  | exception
  | networkOther
deriving DecidableEq, Repr

/-- The TypeScript string literal denoting each RuntimeErrorType. -/
def RuntimeErrorType.str : RuntimeErrorType → String
  | .consoleError => "console-error"
  | .consoleWarning => "console-warning"
  | .network404 => "network-404"
  | .network500 => "network-500"
  | .exception => "exception"
  | .networkOther => "network-other"

/-- Severity levels, from RuntimeErrorSeverity in src/types/runtime-monitoring.ts. -/
inductive RuntimeErrorSeverity
  | critical
  | error
  | warning
  | info
deriving DecidableEq, Repr

/-- Source location attached to an error, the source field of RuntimeError. -/
structure ErrorSource where
  file : String
  line : Option Nat := none
  column : Option Nat := none
deriving DecidableEq, Repr

/-- A single detected runtime error, structure RuntimeError in
src/types/runtime-monitoring.ts.  The id field is produced by nanoid()
and the timestamp by the wall clock; both are external nondeterminism
irrelevant to every claim, modelled as constants. -/
structure RuntimeError where
  id : String := ""
  type : RuntimeErrorType
  severity : RuntimeErrorSeverity
  message : String
  stack : Option String := none
  url : Option String := none
  statusCode : Option Nat := none
  timestamp : Nat := 0
  source : Option ErrorSource := none
deriving DecidableEq, Repr

/-- Summary statistics block of a RuntimeMonitorResult. -/
structure RuntimeMonitorSummary where
  totalErrors : Nat
  consoleErrors : Nat
  networkErrors : Nat
  exceptions : Nat
deriving DecidableEq, Repr

/-- Result of one monitoring session, structure RuntimeMonitorResult.
The monitorDuration field is wall-clock time, modelled as a constant. -/
structure RuntimeMonitorResult where
  success : Bool
  sandboxId : String
  hasErrors : Bool
  errors : List RuntimeError
  warnings : List RuntimeError
  summary : RuntimeMonitorSummary
  monitorDuration : Nat := 0
deriving DecidableEq, Repr

/-- Configuration of one monitoring session, structure RuntimeMonitorConfig. -/
structure RuntimeMonitorConfig where
  sandboxUrl : String
  sandboxId : String
  timeout : Option Nat := none
  errorTypes : Option (List RuntimeErrorType) := none
deriving Repr

/-- The JavaScript truthiness fallback a || b on an optional string:
an absent or empty string falls back to b. -/
def jsOrElse (a : Option String) (b : String) : String :=
  match a with
  | some s => if s = "" then b else s
  | none => b

/-! ## parseErrorSource (src/unnamed/part_000 lines 750-771)

The function runs two JavaScript regexes in order.  Both are embedded
here as explicit leftmost-match, greedy backtracking matchers over the
character list of the input.
-/

/-- JavaScript regex class backslash-d, the decimal digits. -/
def isDigitChar (c : Char) : Bool := c.isDigit

/-- Value of a decimal digit run, as computed by parseInt. -/
def digitsToNat (ds : List Char) : Nat :=
  ds.foldl (fun n c => n * 10 + (c.toNat - '0'.toNat)) 0

/-- Tail matcher for the first regex: after the group-1 characters it must
see a colon, a nonempty greedy digit run (line), a colon, a nonempty greedy
digit run (column) and a closing parenthesis. -/
def lineColTail (cs : List Char) : Option (Nat × Nat) :=
  match cs with
  | ':' :: rest =>
    let d1 := rest.takeWhile isDigitChar
    if d1.isEmpty then none else
    match rest.drop d1.length with
    | ':' :: rest2 =>
      let d2 := rest2.takeWhile isDigitChar
      if d2.isEmpty then none else
      match rest2.drop d2.length with
      | ')' :: _ => some (digitsToNat d1, digitsToNat d2)
      | _ => none
    | _ => none
  | _ => none

/-- Greedy backtracking for group 1 of the first regex, the class
excluding the closing parenthesis, repeated at least once: the longest
split is tried first, shrinking one character at a time. -/
def parenInner : Nat → List Char → Option (String × Nat × Nat)
  | 0, _ => none
  | n + 1, cs =>
    match lineColTail (cs.drop (n + 1)) with
    | some (l, c) => some ((cs.take (n + 1)).asString, l, c)
    | none => parenInner n cs

/-- Attempt the first regex at one start position: an opening parenthesis,
then group 1 with greedy backtracking over the run of characters other
than the closing parenthesis. -/
def matchParenFrom (cs : List Char) : Option (String × Nat × Nat) :=
  match cs with
  | '(' :: rest => parenInner ((rest.takeWhile (fun c => c != ')')).length) rest
  | _ => none

/-- Leftmost match of the first regex of parseErrorSource, the pattern
capturing file, line and column between parentheses: start positions are
tried left to right. -/
def matchParen : List Char → Option (String × Nat × Nat)
  | [] => none
  | c :: rest =>
    match matchParenFrom (c :: rest) with
    | some r => some r
    | none => matchParen rest

/-- JavaScript regex class backslash-s, restricted to its ASCII members
plus the no-break space; the input text never contains the exotic
Unicode spaces, so this restriction is immaterial. -/
def isJsSpace (c : Char) : Bool :=
  c = ' ' || c = '\t' || c = '\n' || c = '\r' || c = '\x0b' || c = '\x0c' || c = ' '

/-- Tail matcher for the second regex: a literal dot, the letters j and s,
an optional x (greedy, so the x alternative is preferred), a colon and a
nonempty greedy digit run. -/
def jsxTail (cs : List Char) : Option (String × Nat) :=
  if ".jsx:".toList.isPrefixOf cs then
    let d := (cs.drop 5).takeWhile isDigitChar
    if d.isEmpty then none else some (".jsx", digitsToNat d)
  else if ".js:".toList.isPrefixOf cs then
    let d := (cs.drop 4).takeWhile isDigitChar
    if d.isEmpty then none else some (".js", digitsToNat d)
  else none

/-- Greedy backtracking for group 1 of the second regex, one or more
non-space characters followed by the extension: longest split first. -/
def jsxInner : Nat → List Char → Option (String × Nat)
  | 0, _ => none
  | n + 1, cs =>
    match jsxTail (cs.drop (n + 1)) with
    | some (ext, ln) => some ((cs.take (n + 1)).asString ++ ext, ln)
    | none => jsxInner n cs

/-- Attempt the second regex at one start position: the non-space run
bounds how far group 1 may reach. -/
def matchJsxFrom (cs : List Char) : Option (String × Nat) :=
  jsxInner ((cs.takeWhile (fun c => !isJsSpace c)).length) cs

/-- Leftmost match of the second regex of parseErrorSource, the looser
file-colon-line pattern for the script extensions. -/
def matchJsx : List Char → Option (String × Nat)
  | [] => none
  | c :: rest =>
    match matchJsxFrom (c :: rest) with
    | some r => some r
    | none => matchJsx rest

/-- Parse error source from an error message or stack text
(src/unnamed/part_000 lines 750-771): first the parenthesized
file-line-column pattern, then the looser file-line pattern, else none. -/
def parseErrorSource (errorText : String) : Option ErrorSource :=
  match matchParen errorText.toList with
  | some (f, l, c) => some { file := f, line := some l, column := some c }
  | none =>
    match matchJsx errorText.toList with
    | some (f, l) => some { file := f, line := some l }
    | none => none

/-! ## Source-path normalization of the fixer
(src/lib/runtime-error-fixer.ts lines 29-39) -/

/-- Strip one leading slash, the startsWith-slice step of the fixer. -/
def stripSlash (p : List Char) : List Char :=
  if "/".toList.isPrefixOf p then p.drop 1 else p

/-- Strip one leading dot-slash, the second startsWith-slice step. -/
def stripDotSlash (p : List Char) : List Char :=
  if "./".toList.isPrefixOf p then p.drop 2 else p

/-- Prefix the source root when the path does not already start with it
and carries a component extension. -/
def addSrcRoot (p : List Char) : List Char :=
  if !("src/".toList.isPrefixOf p) && (".jsx".toList.isSuffixOf p || ".tsx".toList.isSuffixOf p)
  then "src/".toList ++ p else p

/-- Path normalization applied to error.source.file by fixRuntimeErrors. -/
def normalizeChars (p : List Char) : List Char :=
  addSrcRoot (stripDotSlash (stripSlash p))

/-- String wrapper of the path normalization. -/
def normalizePath (s : String) : String :=
  (normalizeChars s.toList).asString

/-! ## The monitor (src/unnamed/part_000, monitorSandbox and setupErrorListeners)

The four Playwright listeners are asynchronous callbacks that only append
to the two session collections; one session is modelled as a fold over
the list of events in their firing order.  Navigation outcome and the
root-content check are the remaining external inputs of a session.
-/

/-- One asynchronous page event observed by the listeners registered in
setupErrorListeners: a console message with its level, an uncaught page
exception, an HTTP response with its status, or a request transport
failure with its optional error text. -/
inductive PageEvent
  | console (msgType : String) (text : String)
  | pageError (message : String) (stack : Option String)
  | response (status : Nat) (url : String)
  | requestFailed (url : String) (errorText : Option String)
deriving DecidableEq, Repr

/-- The allow-list filter of setupErrorListeners: absent or empty
errorTypes captures everything, otherwise membership decides. -/
def shouldCapture (errorTypes : Option (List RuntimeErrorType)) (t : RuntimeErrorType) : Bool :=
  match errorTypes with
  | none => true
  | some l => l.isEmpty || l.contains t

/-- Effect of one event on the session collections (errors, warnings),
following the four listener bodies of setupErrorListeners verbatim. -/
def handleEvent (et : Option (List RuntimeErrorType))
    (acc : List RuntimeError × List RuntimeError) :
    PageEvent → List RuntimeError × List RuntimeError
  | .console msgType text =>
    if msgType = "error" ∧ shouldCapture et .consoleError then
      (acc.1 ++ [{ type := .consoleError, severity := .error, message := text,
                   source := parseErrorSource text }], acc.2)
    else if msgType = "warning" ∧ shouldCapture et .consoleWarning then
      (acc.1, acc.2 ++ [{ type := .consoleWarning, severity := .warning, message := text }])
    else acc
  | .pageError message stk =>
    if shouldCapture et .exception then
      (acc.1 ++ [{ type := .exception, severity := .critical, message := message,
                   stack := stk, source := parseErrorSource (jsOrElse stk message) }], acc.2)
    else acc
  | .response status url =>
    if status = 404 ∧ shouldCapture et .network404 then
      (acc.1 ++ [{ type := .network404, severity := .error,
                   message := "404 Not Found: " ++ url,
                   url := some url, statusCode := some 404 }], acc.2)
    else if 500 ≤ status ∧ shouldCapture et .network500 then
      (acc.1 ++ [{ type := .network500, severity := .critical,
                   message := "HTTP " ++ toString status ++ ": " ++ url,
                   url := some url, statusCode := some status }], acc.2)
    else if 400 ≤ status ∧ status < 500 ∧ status ≠ 404 then
      (acc.1, acc.2 ++ [{ type := .networkOther, severity := .warning,
                          message := "HTTP " ++ toString status ++ ": " ++ url,
                          url := some url, statusCode := some status }])
    else acc
  | .requestFailed url errText =>
    (acc.1, acc.2 ++ [{ type := .networkOther, severity := .warning,
                        message := "Request failed: " ++ jsOrElse errText "Unknown error"
                          ++ " - " ++ url,
                        url := some url }])

/-- Collections gathered by the listeners over a whole session. -/
def processEvents (et : Option (List RuntimeErrorType)) (events : List PageEvent) :
    List RuntimeError × List RuntimeError :=
  events.foldl (handleEvent et) ([], [])

/-- External observations of one session: whether page.goto threw (with
its message), the events delivered to the listeners, and the outcome of
the root-children content check (false also covers an evaluate throw). -/
structure SessionTrace where
  navFailureMsg : Option String
  events : List PageEvent
  hasContent : Bool
deriving Repr

/-- The error synthesized by monitorSandbox when navigation fails. -/
def navFailureError (sandboxUrl msg : String) : RuntimeError :=
  { type := .networkOther, severity := .critical,
    message := "Failed to navigate to sandbox: " ++ msg,
    url := some sandboxUrl }

/-- The advisory warning pushed when the React root has no children. -/
def emptyRootWarning : RuntimeError :=
  { type := .consoleWarning, severity := .warning,
    message := "React root is empty - page may not have rendered" }

/-- Session warnings after the content check: the advisory is appended
when the root appears empty. -/
def finalWarnings (warnings : List RuntimeError) (hasContent : Bool) : List RuntimeError :=
  if hasContent then warnings else warnings ++ [emptyRootWarning]

/-- Test used by the summary: the type string starts with the console
prefix. -/
def isConsoleType (t : RuntimeErrorType) : Bool :=
  "console-".toList.isPrefixOf t.str.toList

/-- Test used by the summary: the type string starts with the network
prefix. -/
def isNetworkType (t : RuntimeErrorType) : Bool :=
  "network-".toList.isPrefixOf t.str.toList

/-- Summary block computed by monitorSandbox by scanning type prefixes of
the errors collection. -/
def computeSummary (errors warnings : List RuntimeError) : RuntimeMonitorSummary :=
  { totalErrors := errors.length + warnings.length
    consoleErrors := (errors.filter fun e => isConsoleType e.type).length
    networkErrors := (errors.filter fun e => isNetworkType e.type).length
    exceptions := (errors.filter fun e => e.type == .exception).length }

/-- One monitoring session (function monitorSandbox): on navigation
failure the single synthesized critical error is returned and the
collected events are discarded; on success the collections, the content
check, the hasErrors flag and the summary are assembled as in the source. -/
def monitorSandbox (config : RuntimeMonitorConfig) (trace : SessionTrace) :
    RuntimeMonitorResult :=
  match trace.navFailureMsg with
  | some msg =>
    { success := false
      sandboxId := config.sandboxId
      hasErrors := true
      errors := [navFailureError config.sandboxUrl msg]
      warnings := []
      summary := { totalErrors := 1, consoleErrors := 0, networkErrors := 1, exceptions := 0 } }
  | none =>
    let collected := processEvents config.errorTypes trace.events
    let errors := collected.1
    let warnings := finalWarnings collected.2 trace.hasContent
    { success := true
      sandboxId := config.sandboxId
      hasErrors := decide (0 < (errors.filter fun e =>
        e.severity == .critical || e.severity == .error).length)
      errors := errors
      warnings := warnings
      summary := computeSummary errors warnings }

/-! ## File resolution of the fixer (src/lib/runtime-error-fixer.ts lines 17-50) -/

/-- Insertion into the working file set; a JavaScript Set keeps first
insertion order and ignores duplicates. -/
def setAdd (s : List String) (x : String) : List String :=
  if x ∈ s then s else s ++ [x]

/-- The four unconditional additions of always-relevant files. -/
def alwaysRelevantAdded (s : List String) : List String :=
  setAdd (setAdd (setAdd (setAdd s "package.json") "index.html") "src/index.css") "src/main.jsx"

/-- The working file set of fixRuntimeErrors: the focus files, then the
always-relevant files, then the normalized source path of every error
that carries one.  The message-scan step of the source inspects the
message but never adds anything to the set. -/
def relevantFiles (errors : List RuntimeError) (focusFiles : List String) : List String :=
  let s0 := focusFiles.foldl setAdd []
  let s1 := alwaysRelevantAdded s0
  errors.foldl (fun s e =>
    match e.source with
    | some src => setAdd s (normalizePath src.file)
    | none => s) s1

/-! ## The severity-from-type mapping asserted by the specification -/

/-- Modelled from the spec: the fixed severity-from-type mapping the
specification claims holds for every created RuntimeError.  This
definition follows the words of the spec and is compared against the
listener and navigation-failure code above. -/
def specSeverityOfType : RuntimeErrorType → RuntimeErrorSeverity
  | .consoleError => .error
  | .exception => .critical
  | .network404 => .error
  | .network500 => .critical
  | .networkOther => .warning
  | .consoleWarning => .warning

/-! ## Invariant predicates of the session collections -/

/-- Every element the listeners append to the errors collection satisfies
this: severity critical or error, severity matching the type mapping, and
a type among the four that ever reach the errors collection. -/
def errInv (e : RuntimeError) : Bool :=
  (e.severity == .critical || e.severity == .error) &&
  (e.severity == specSeverityOfType e.type) &&
  (e.type == .consoleError || e.type == .exception ||
   e.type == .network404 || e.type == .network500)

/-- Every element the listeners append to the warnings collection
satisfies this: severity warning, matching the type mapping, with a type
among the two that ever reach the warnings collection. -/
def warnInv (w : RuntimeError) : Bool :=
  (w.severity == .warning) && (w.severity == specSeverityOfType w.type) &&
  (w.type == .consoleWarning || w.type == .networkOther)

/-! ## Helper lemmas -/

/-- A Boolean existence test over a list agrees with positivity of the
filtered length, the shape in which monitorSandbox computes hasErrors. -/
theorem any_eq_decide_pos_filter {α : Type} (p : α → Bool) (l : List α) :
    l.any p = decide (0 < (l.filter p).length) := by
  induction l with
  | nil => rfl
  | cons a t ih =>
    cases hpa : p a
    · simpa [List.any_cons, List.filter_cons, hpa] using ih
    · simp [List.any_cons, List.filter_cons, hpa]

/-- Appending one element that satisfies a Boolean predicate preserves a
universal Boolean test over a list. -/
theorem all_append_singleton (l : List RuntimeError) (p : RuntimeError → Bool)
    (x : RuntimeError) (hl : l.all p = true) (hx : p x = true) :
    (l ++ [x]).all p = true := by
  simp [List.all_append, hl, hx]

/-- One listener step preserves the invariants of the two collections. -/
theorem handleEvent_inv (et : Option (List RuntimeErrorType))
    (acc : List RuntimeError × List RuntimeError) (ev : PageEvent)
    (h1 : acc.1.all errInv = true) (h2 : acc.2.all warnInv = true) :
    (handleEvent et acc ev).1.all errInv = true ∧
    (handleEvent et acc ev).2.all warnInv = true := by
  cases ev with
  | console mt text =>
    simp only [handleEvent]
    split_ifs
    · exact ⟨all_append_singleton _ _ _ h1 rfl, h2⟩
    · exact ⟨h1, all_append_singleton _ _ _ h2 rfl⟩
    · exact ⟨h1, h2⟩
  | pageError m stk =>
    simp only [handleEvent]
    split_ifs
    · exact ⟨all_append_singleton _ _ _ h1 rfl, h2⟩
    · exact ⟨h1, h2⟩
  | response st url =>
    simp only [handleEvent]
    split_ifs
    · exact ⟨all_append_singleton _ _ _ h1 rfl, h2⟩
    · exact ⟨all_append_singleton _ _ _ h1 rfl, h2⟩
    · exact ⟨h1, all_append_singleton _ _ _ h2 rfl⟩
    · exact ⟨h1, h2⟩
  | requestFailed url errText =>
    simp only [handleEvent]
    exact ⟨h1, all_append_singleton _ _ _ h2 rfl⟩

/-- The fold over a whole event list preserves the invariants. -/
theorem foldl_events_inv (et : Option (List RuntimeErrorType)) (events : List PageEvent) :
    ∀ acc : List RuntimeError × List RuntimeError,
      acc.1.all errInv = true → acc.2.all warnInv = true →
      (events.foldl (handleEvent et) acc).1.all errInv = true ∧
      (events.foldl (handleEvent et) acc).2.all warnInv = true := by
  induction events with
  | nil => exact fun acc h1 h2 => ⟨h1, h2⟩
  | cons ev rest ih =>
    intro acc h1 h2
    have h := handleEvent_inv et acc ev h1 h2
    simpa [List.foldl_cons] using ih _ h.1 h.2

/-- All collected errors and warnings satisfy their invariants. -/
theorem processEvents_inv (et : Option (List RuntimeErrorType)) (events : List PageEvent) :
    (processEvents et events).1.all errInv = true ∧
    (processEvents et events).2.all warnInv = true :=
  foldl_events_inv et events ([], []) rfl rfl

/-- Appending the empty-root advisory preserves the warnings invariant. -/
theorem finalWarnings_inv (ws : List RuntimeError) (hc : Bool)
    (h : ws.all warnInv = true) : (finalWarnings ws hc).all warnInv = true := by
  cases hc with
  | false => exact all_append_singleton _ _ _ h rfl
  | true => simpa [finalWarnings] using h

/-- Positivity of a list length as a Boolean agrees with non-emptiness. -/
theorem decide_pos_length (l : List RuntimeError) :
    decide (0 < l.length) = !l.isEmpty := by
  cases l <;> simp

/-- First component of the errors invariant: severity critical or error. -/
theorem errInv_sev (e : RuntimeError) (h : errInv e = true) :
    (e.severity == .critical || e.severity == .error) = true := by
  simp only [errInv, Bool.and_eq_true] at h
  exact h.1.1

/-- Second component of the errors invariant: the type mapping holds. -/
theorem errInv_map (e : RuntimeError) (h : errInv e = true) :
    (e.severity == specSeverityOfType e.type) = true := by
  simp only [errInv, Bool.and_eq_true] at h
  exact h.1.2

/-- Third component of the errors invariant: the four error types. -/
theorem errInv_type (e : RuntimeError) (h : errInv e = true) :
    e.type = .consoleError ∨ e.type = .exception ∨
    e.type = .network404 ∨ e.type = .network500 := by
  simp only [errInv, Bool.and_eq_true, Bool.or_eq_true, beq_iff_eq] at h
  tauto

/-- First component of the warnings invariant: severity warning. -/
theorem warnInv_sev (w : RuntimeError) (h : warnInv w = true) :
    (w.severity == .warning) = true := by
  simp only [warnInv, Bool.and_eq_true] at h
  exact h.1.1

/-- Second component of the warnings invariant: the type mapping holds. -/
theorem warnInv_map (w : RuntimeError) (h : warnInv w = true) :
    (w.severity == specSeverityOfType w.type) = true := by
  simp only [warnInv, Bool.and_eq_true] at h
  exact h.1.2

/-- Weakening a universal Boolean test along a pointwise implication. -/
theorem all_weaken (l : List RuntimeError) (p q : RuntimeError → Bool)
    (h : l.all p = true) (hpq : ∀ e, p e = true → q e = true) :
    l.all q = true := by
  rw [List.all_eq_true] at h ⊢
  exact fun e he => hpq e (h e he)

/-! ## C2: hasErrors agrees with the presence of a critical or error item -/

/-- C2: for every monitoring session that returns a result, hasErrors is
true exactly when the errors list holds at least one item whose severity
is critical or error; in particular a warnings-only session reports
hasErrors false. -/
theorem c2_hasErrors_iff_critical (config : RuntimeMonitorConfig) (trace : SessionTrace) :
    (monitorSandbox config trace).hasErrors =
      (monitorSandbox config trace).errors.any
        (fun e => e.severity == .critical || e.severity == .error) := by
  obtain ⟨nav, events, hc⟩ := trace
  cases nav with
  | some msg => simp [monitorSandbox, navFailureError]
  | none => simp [monitorSandbox, any_eq_decide_pos_filter]

/-! ## C4: the navigation-failure result -/

/-- C4: when navigation fails, the session result has success false,
hasErrors true, exactly one synthesized network-other critical error
describing the failure with the target URL attached, no warnings, the
summary of one network error, and it does not depend on any collected
events or on the content check (no further collection). -/
theorem c4_navigation_failure (config : RuntimeMonitorConfig) (msg : String)
    (events : List PageEvent) (hc : Bool) :
    (monitorSandbox config ⟨some msg, events, hc⟩).success = false ∧
    (monitorSandbox config ⟨some msg, events, hc⟩).hasErrors = true ∧
    (∃ e, (monitorSandbox config ⟨some msg, events, hc⟩).errors = [e] ∧
      e.type = .networkOther ∧ e.severity = .critical ∧
      e.message = "Failed to navigate to sandbox: " ++ msg ∧
      e.url = some config.sandboxUrl) ∧
    (monitorSandbox config ⟨some msg, events, hc⟩).warnings = [] ∧
    (monitorSandbox config ⟨some msg, events, hc⟩).summary =
      { totalErrors := 1, consoleErrors := 0, networkErrors := 1, exceptions := 0 } ∧
    monitorSandbox config ⟨some msg, events, hc⟩ =
      monitorSandbox config ⟨some msg, [], true⟩ := by
  exact ⟨rfl, rfl, ⟨navFailureError config.sandboxUrl msg, rfl, rfl, rfl, rfl, rfl⟩,
    rfl, rfl, rfl⟩

/-! ## C5: totalErrors counts both collections -/

/-- C5: on both the navigation-failure path and the success path, the
summary field totalErrors equals the length of the errors list plus the
length of the warnings list. -/
theorem c5_totalErrors_eq (config : RuntimeMonitorConfig) (trace : SessionTrace) :
    (monitorSandbox config trace).summary.totalErrors =
      (monitorSandbox config trace).errors.length +
      (monitorSandbox config trace).warnings.length := by
  obtain ⟨nav, events, hc⟩ := trace
  cases nav with
  | some msg => rfl
  | none => rfl

/-! ## C9: severity segregation of the two collections -/

/-- C9: in every returned result, every element of the errors collection
has severity critical or error and every element of the warnings
collection has severity warning; consequently hasErrors is exactly
non-emptiness of the errors list. -/
theorem c9_severity_segregation (config : RuntimeMonitorConfig) (trace : SessionTrace) :
    ((monitorSandbox config trace).errors.all fun e =>
        e.severity == .critical || e.severity == .error) = true ∧
    ((monitorSandbox config trace).warnings.all fun w =>
        w.severity == .warning) = true ∧
    (monitorSandbox config trace).hasErrors = !(monitorSandbox config trace).errors.isEmpty := by
  obtain ⟨nav, events, hc⟩ := trace
  cases nav with
  | some msg => exact ⟨rfl, rfl, rfl⟩
  | none =>
    obtain ⟨he, hw⟩ := processEvents_inv config.errorTypes events
    have herr := all_weaken _ _ _ he (fun e h => errInv_sev e h)
    have hwarn := all_weaken _ _ _ (finalWarnings_inv _ hc hw) (fun w h => warnInv_sev w h)
    refine ⟨herr, hwarn, ?_⟩
    have hfe : ((processEvents config.errorTypes events).1.filter fun e =>
        e.severity == .critical || e.severity == .error) =
        (processEvents config.errorTypes events).1 :=
      List.filter_eq_self.mpr (List.all_eq_true.mp herr)
    show decide (0 < ((processEvents config.errorTypes events).1.filter fun e =>
        e.severity == .critical || e.severity == .error).length) =
      !(processEvents config.errorTypes events).1.isEmpty
    rw [hfe, decide_pos_length]

/-! ## C1: the severity-from-type mapping -/

/-- C1 counterexample: the synthesized navigation-failure error has type
network-other with severity critical, while the claimed mapping sends
network-other to warning, so not every RuntimeError created by the
Monitor follows the mapping. -/
theorem c1_counterexample :
    ∃ e ∈ (monitorSandbox { sandboxUrl := "http://sandbox", sandboxId := "s1" }
        { navFailureMsg := some "Timeout 500ms exceeded", events := [],
          hasContent := true }).errors,
      e.severity ≠ specSeverityOfType e.type := by decide

/-- C1 amended: every error and warning created by the listener callbacks
(and the empty-root advisory) has its severity determined by its type
according to the fixed mapping; the synthesized navigation-failure error
is the one exception, carrying type network-other with severity critical. -/
theorem c1_amended (config : RuntimeMonitorConfig) (msg : String)
    (events : List PageEvent) (hc : Bool) :
    ((monitorSandbox config ⟨none, events, hc⟩).errors.all fun e =>
        e.severity == specSeverityOfType e.type) = true ∧
    ((monitorSandbox config ⟨none, events, hc⟩).warnings.all fun w =>
        w.severity == specSeverityOfType w.type) = true ∧
    ∃ e, (monitorSandbox config ⟨some msg, events, hc⟩).errors = [e] ∧
      e.type = .networkOther ∧ e.severity = .critical := by
  obtain ⟨he, hw⟩ := processEvents_inv config.errorTypes events
  exact ⟨all_weaken _ _ _ he (fun e h => errInv_map e h),
    all_weaken _ _ _ (finalWarnings_inv _ hc hw) (fun w h => warnInv_map w h),
    ⟨navFailureError config.sandboxUrl msg, rfl, rfl, rfl⟩⟩

/-! ## C10: per-category summary counts partition the errors collection -/

/-- Category test evaluated on each of the six types. -/
theorem isConsoleType_eval (t : RuntimeErrorType) :
    isConsoleType t = (t == .consoleError || t == .consoleWarning) := by
  cases t <;> rfl

/-- Category test evaluated on each of the six types. -/
theorem isNetworkType_eval (t : RuntimeErrorType) :
    isNetworkType t = (t == .network404 || t == .network500 || t == .networkOther) := by
  cases t <;> rfl

/-- On a list satisfying the errors invariant the three category filters
partition the list. -/
theorem sum_category_filters : ∀ l : List RuntimeError, l.all errInv = true →
    (l.filter fun e => isConsoleType e.type).length +
    (l.filter fun e => isNetworkType e.type).length +
    (l.filter fun e => e.type == .exception).length = l.length := by
  intro l
  induction l with
  | nil => intro _; rfl
  | cons a t ih =>
    intro h
    rw [List.all_cons, Bool.and_eq_true] at h
    obtain ⟨ha, ht⟩ := h
    have iht := ih ht
    rcases errInv_type a ha with h1 | h1 | h1 | h1
    · have hc1 : isConsoleType a.type = true := by rw [h1]; rfl
      have hc2 : isNetworkType a.type = false := by rw [h1]; rfl
      have hc3 : (a.type == RuntimeErrorType.exception) = false := by rw [h1]; rfl
      simp [List.filter_cons, hc1, hc2, hc3]
      omega
    · have hc1 : isConsoleType a.type = false := by rw [h1]; rfl
      have hc2 : isNetworkType a.type = false := by rw [h1]; rfl
      have hc3 : (a.type == RuntimeErrorType.exception) = true := by rw [h1]; rfl
      simp [List.filter_cons, hc1, hc2, hc3]
      omega
    · have hc1 : isConsoleType a.type = false := by rw [h1]; rfl
      have hc2 : isNetworkType a.type = true := by rw [h1]; rfl
      have hc3 : (a.type == RuntimeErrorType.exception) = false := by rw [h1]; rfl
      simp [List.filter_cons, hc1, hc2, hc3]
      omega
    · have hc1 : isConsoleType a.type = false := by rw [h1]; rfl
      have hc2 : isNetworkType a.type = true := by rw [h1]; rfl
      have hc3 : (a.type == RuntimeErrorType.exception) = false := by rw [h1]; rfl
      simp [List.filter_cons, hc1, hc2, hc3]
      omega

/-- C10: for every successful session the summary counts consoleErrors,
networkErrors and exceptions are computed from the errors collection only
and partition it, so their sum is the length of the errors list and no
warning contributes to any per-category count. -/
theorem c10_category_counts (config : RuntimeMonitorConfig)
    (events : List PageEvent) (hc : Bool) :
    (monitorSandbox config ⟨none, events, hc⟩).summary.consoleErrors +
    (monitorSandbox config ⟨none, events, hc⟩).summary.networkErrors +
    (monitorSandbox config ⟨none, events, hc⟩).summary.exceptions =
    (monitorSandbox config ⟨none, events, hc⟩).errors.length := by
  obtain ⟨he, _⟩ := processEvents_inv config.errorTypes events
  exact sum_category_filters _ he

/-! ## C3: which listeners the allow-list actually filters -/

/-- C3 counterexample: with the non-empty allow-list holding only
console-error, an HTTP 403 response classifies as network-other, a type
not in the allow-list, yet a warning is still recorded, so the other-4XX
signal source is not filtered by the allow-list. -/
theorem c3_counterexample :
    shouldCapture (some [RuntimeErrorType.consoleError]) RuntimeErrorType.networkOther = false ∧
    ∃ w ∈ (processEvents (some [RuntimeErrorType.consoleError])
        [PageEvent.response 403 "http://sandbox/a"]).2,
      w.type = RuntimeErrorType.networkOther := by decide

/-- C3 amended: the allow-list filters console output, uncaught
exceptions, 404 responses and 500-and-above responses (a blocked type
adds nothing to either collection), but an other-4XX response and a
request transport failure always append one warning regardless of the
allow-list; an absent or empty allow-list captures every type. -/
theorem c3_amended (et : Option (List RuntimeErrorType))
    (acc : List RuntimeError × List RuntimeError)
    (text msg url errText : String) (stk : Option String)
    (st5 stO : Nat) (t : RuntimeErrorType) :
    (shouldCapture et .consoleError = false →
      handleEvent et acc (.console "error" text) = acc) ∧
    (shouldCapture et .consoleWarning = false →
      handleEvent et acc (.console "warning" text) = acc) ∧
    (shouldCapture et .exception = false →
      handleEvent et acc (.pageError msg stk) = acc) ∧
    (shouldCapture et .network404 = false →
      handleEvent et acc (.response 404 url) = acc) ∧
    (500 ≤ st5 → shouldCapture et .network500 = false →
      handleEvent et acc (.response st5 url) = acc) ∧
    (400 ≤ stO → stO < 500 → stO ≠ 404 →
      (handleEvent et acc (.response stO url)).2.length = acc.2.length + 1 ∧
      (handleEvent et acc (.response stO url)).1 = acc.1) ∧
    (handleEvent et acc (.requestFailed url errText)).2.length = acc.2.length + 1 ∧
    (handleEvent et acc (.requestFailed url errText)).1 = acc.1 ∧
    shouldCapture none t = true ∧
    shouldCapture (some []) t = true := by
  refine ⟨?_, ?_, ?_, ?_, ?_, ?_, ?_, ?_, rfl, rfl⟩
  · intro h1
    simp [handleEvent, h1]
  · intro h2
    simp [handleEvent, h2]
  · intro h3
    simp [handleEvent, h3]
  · intro h4
    simp [handleEvent, h4]
  · intro h6 h5
    have hne : st5 ≠ 404 := by omega
    have hlt5 : ¬ st5 < 500 := by omega
    simp [handleEvent, h5, hne, hlt5]
  · intro h7 h8 h9
    have hltO : ¬ 500 ≤ stO := by omega
    constructor
    · simp [handleEvent, h9, hltO, h7, h8]
    · simp [handleEvent, h9, hltO, h7, h8]
  · simp [handleEvent]
  · simp [handleEvent]

/-- C3 amended witness at a concrete allow-list and concrete signals,
discharging the blocking hypothesis of every filtered source and the
range hypotheses of the other-4XX source. -/
theorem c3_amended_witness :
    handleEvent (some [RuntimeErrorType.networkOther]) ([], [])
      (PageEvent.console "error" "boom") = ([], []) ∧
    handleEvent (some [RuntimeErrorType.networkOther]) ([], [])
      (PageEvent.console "warning" "boom") = ([], []) ∧
    handleEvent (some [RuntimeErrorType.networkOther]) ([], [])
      (PageEvent.pageError "m" none) = ([], []) ∧
    handleEvent (some [RuntimeErrorType.networkOther]) ([], [])
      (PageEvent.response 404 "http://u") = ([], []) ∧
    handleEvent (some [RuntimeErrorType.networkOther]) ([], [])
      (PageEvent.response 500 "http://u") = ([], []) ∧
    (handleEvent (some [RuntimeErrorType.networkOther]) ([], [])
      (PageEvent.response 403 "http://u")).2.length = 1 ∧
    (handleEvent (some [RuntimeErrorType.networkOther]) ([], [])
      (PageEvent.response 403 "http://u")).1 = [] ∧
    (handleEvent (some [RuntimeErrorType.networkOther]) ([], [])
      (PageEvent.requestFailed "http://u" none)).2.length = 1 ∧
    (handleEvent (some [RuntimeErrorType.networkOther]) ([], [])
      (PageEvent.requestFailed "http://u" none)).1 = [] ∧
    shouldCapture none RuntimeErrorType.consoleError = true ∧
    shouldCapture (some []) RuntimeErrorType.consoleError = true := by
  have h := c3_amended (some [RuntimeErrorType.networkOther]) ([], []) "boom" "m"
    "http://u" "net" none 500 403 RuntimeErrorType.consoleError
  exact ⟨h.1 (by decide), h.2.1 (by decide), h.2.2.1 (by decide), h.2.2.2.1 (by decide),
    h.2.2.2.2.1 (by decide) (by decide),
    (h.2.2.2.2.2.1 (by decide) (by decide) (by decide)).1,
    (h.2.2.2.2.2.1 (by decide) (by decide) (by decide)).2,
    h.2.2.2.2.2.2.1, h.2.2.2.2.2.2.2.1, h.2.2.2.2.2.2.2.2.1, h.2.2.2.2.2.2.2.2.2⟩

/-! ## C7: idempotence of the source-path normalization -/

/-- Round trip between strings and their character lists. -/
theorem toList_asString (l : List Char) : (l.asString).toList = l := rfl

/-- The slash strip is the identity when no leading slash is present. -/
theorem stripSlash_eq (p : List Char) (h : "/".toList.isPrefixOf p = false) :
    stripSlash p = p := by
  unfold stripSlash
  rw [if_neg (by simp only [h]; exact Bool.false_ne_true)]

/-- The dot-slash strip is the identity when no leading marker is present. -/
theorem stripDotSlash_eq (p : List Char) (h : "./".toList.isPrefixOf p = false) :
    stripDotSlash p = p := by
  unfold stripDotSlash
  rw [if_neg (by simp only [h]; exact Bool.false_ne_true)]

/-- A path already under the source root is left unchanged. -/
theorem addSrcRoot_src (q : List Char) :
    addSrcRoot ("src/".toList ++ q) = "src/".toList ++ q := by
  have h : ("src/".toList.isPrefixOf ("src/".toList ++ q)) = true := by
    rw [List.isPrefixOf_iff_prefix]
    exact List.prefix_append _ _
  simp [addSrcRoot, h]

/-- Idempotence of the character-level normalization for every input
whose normalized form does not itself begin with a stripping marker. -/
theorem normalizeChars_idem (l : List Char)
    (h1 : "/".toList.isPrefixOf (normalizeChars l) = false)
    (h2 : "./".toList.isPrefixOf (normalizeChars l) = false) :
    normalizeChars (normalizeChars l) = normalizeChars l := by
  have key : ∀ q : List Char,
      "/".toList.isPrefixOf (addSrcRoot q) = false →
      "./".toList.isPrefixOf (addSrcRoot q) = false →
      normalizeChars (addSrcRoot q) = addSrcRoot q := by
    intro q hq1 hq2
    by_cases hc : (!("src/".toList.isPrefixOf q) &&
        (".jsx".toList.isSuffixOf q || ".tsx".toList.isSuffixOf q)) = true
    · have hfired : addSrcRoot q = "src/".toList ++ q := by
        unfold addSrcRoot
        rw [if_pos hc]
      have hs1 : "/".toList.isPrefixOf ("src/".toList ++ q) = false := rfl
      have hs2 : "./".toList.isPrefixOf ("src/".toList ++ q) = false := rfl
      rw [hfired]
      unfold normalizeChars
      rw [stripSlash_eq _ hs1, stripDotSlash_eq _ hs2, addSrcRoot_src]
    · have hnf : addSrcRoot q = q := by
        unfold addSrcRoot
        rw [if_neg hc]
      rw [hnf] at hq1 hq2 ⊢
      unfold normalizeChars
      rw [stripSlash_eq _ hq1, stripDotSlash_eq _ hq2, hnf]
  exact key (stripDotSlash (stripSlash l)) h1 h2

/-- C7 counterexample: the path with a doubled leading slash normalizes
to a path with one leading slash, which normalizes differently again, so
the normalization is not idempotent on every input. -/
theorem c7_counterexample :
    normalizePath (normalizePath "//styles.css") ≠ normalizePath "//styles.css" := by
  decide

/-- C7 amended: the normalization is idempotent on every input whose
normalized form does not itself start with a slash or a dot-slash
marker; only paths with stacked leading markers, which shed one marker
per application, escape idempotence. -/
theorem c7_amended (p : String)
    (h1 : "/".toList.isPrefixOf (normalizePath p).toList = false)
    (h2 : "./".toList.isPrefixOf (normalizePath p).toList = false) :
    normalizePath (normalizePath p) = normalizePath p := by
  unfold normalizePath at h1 h2 ⊢
  rw [toList_asString] at h1 h2 ⊢
  rw [normalizeChars_idem p.toList h1 h2]

/-- C7 amended witness at the concrete absolute component path. -/
theorem c7_amended_witness :
    "/".toList.isPrefixOf (normalizePath "/App.jsx").toList = false ∧
    "./".toList.isPrefixOf (normalizePath "/App.jsx").toList = false ∧
    normalizePath (normalizePath "/App.jsx") = normalizePath "/App.jsx" :=
  ⟨by decide, by decide, c7_amended "/App.jsx" (by decide) (by decide)⟩

/-! ## C8: the always-relevant files are always in the working set -/

/-- An inserted element is a member of the working set. -/
theorem mem_setAdd_self (s : List String) (x : String) : x ∈ setAdd s x := by
  by_cases h : x ∈ s <;> simp [setAdd, h]

/-- Insertion preserves existing membership. -/
theorem mem_setAdd (s : List String) (x y : String) (h : x ∈ s) : x ∈ setAdd s y := by
  by_cases hy : y ∈ s <;> simp [setAdd, hy, h]

/-- The error-source pass of the fixer only ever inserts, so membership
in the starting set is preserved. -/
theorem mem_relevant_foldl (errors : List RuntimeError) :
    ∀ s : List String, ∀ x ∈ s,
      x ∈ errors.foldl (fun s e =>
        match e.source with
        | some src => setAdd s (normalizePath src.file)
        | none => s) s := by
  induction errors with
  | nil => exact fun s x hx => hx
  | cons e t ih =>
    intro s x hx
    simp only [List.foldl_cons]
    apply ih
    cases he : e.source with
    | some src =>
      simp only [he]
      exact mem_setAdd _ _ _ hx
    | none =>
      simpa [he] using hx

/-- C8: for every invocation of the fixer, the four always-relevant files
are members of the working file set, for every error list and every
focus-file list, including the empty one. -/
theorem c8_always_relevant (errors : List RuntimeError) (focusFiles : List String) :
    "package.json" ∈ relevantFiles errors focusFiles ∧
    "index.html" ∈ relevantFiles errors focusFiles ∧
    "src/index.css" ∈ relevantFiles errors focusFiles ∧
    "src/main.jsx" ∈ relevantFiles errors focusFiles := by
  refine ⟨?_, ?_, ?_, ?_⟩ <;> apply mem_relevant_foldl
  · exact mem_setAdd _ _ _ (mem_setAdd _ _ _ (mem_setAdd _ _ _ (mem_setAdd_self _ _)))
  · exact mem_setAdd _ _ _ (mem_setAdd _ _ _ (mem_setAdd_self _ _))
  · exact mem_setAdd _ _ _ (mem_setAdd_self _ _)
  · exact mem_setAdd_self _ _

/-! ## C6: ordered two-attempt source extraction -/

/-- The extension produced by the tail matcher of the second regex is one
of the two script extensions. -/
theorem jsxTail_shape (cs : List Char) (f : String) (n : Nat)
    (h : jsxTail cs = some (f, n)) : f = ".js" ∨ f = ".jsx" := by
  unfold jsxTail at h
  split_ifs at h <;> simp_all

/-- The file captured by the backtracking loop of the second regex ends
in a script extension. -/
theorem jsxInner_shape : ∀ (n : Nat) (cs : List Char) (f : String) (ln : Nat),
    jsxInner n cs = some (f, ln) → ∃ p, f = p ++ ".js" ∨ f = p ++ ".jsx" := by
  intro n
  induction n with
  | zero =>
    intro cs f ln h
    simp [jsxInner] at h
  | succ m ih =>
    intro cs f ln h
    unfold jsxInner at h
    cases ht : jsxTail (cs.drop (m + 1)) with
    | some r =>
      obtain ⟨ext, ln2⟩ := r
      rw [ht] at h
      simp only [Option.some.injEq, Prod.mk.injEq] at h
      obtain ⟨hf, hln⟩ := h
      rcases jsxTail_shape _ _ _ ht with he | he
      · exact ⟨(cs.take (m + 1)).asString, Or.inl (by rw [← hf, he])⟩
      · exact ⟨(cs.take (m + 1)).asString, Or.inr (by rw [← hf, he])⟩
    | none =>
      rw [ht] at h
      exact ih cs f ln h

/-- The file captured anywhere by the second regex ends in a script
extension. -/
theorem matchJsx_shape : ∀ (cs : List Char) (f : String) (ln : Nat),
    matchJsx cs = some (f, ln) → ∃ p, f = p ++ ".js" ∨ f = p ++ ".jsx" := by
  intro cs
  induction cs with
  | nil =>
    intro f ln h
    simp [matchJsx] at h
  | cons c rest ih =>
    intro f ln h
    unfold matchJsx at h
    cases hm : matchJsxFrom (c :: rest) with
    | some r =>
      obtain ⟨f2, l2⟩ := r
      rw [hm] at h
      simp only [Option.some.injEq, Prod.mk.injEq] at h
      obtain ⟨hf, -⟩ := h
      exact hf ▸ jsxInner_shape _ _ _ _ hm
    | none =>
      rw [hm] at h
      exact ih f ln h

/-- C6: source-location extraction is a pure function of the input text
with two ordered attempts: when the parenthesized file-line-column
pattern matches, its file, line and column are returned; otherwise, when
the looser file-line pattern for the script extensions matches, its file
(which ends in one of the two script extensions) and line are returned
with no column; otherwise no source is returned. -/
theorem c6_parse_source_ordered (s : String) :
    (∃ f l c, matchParen s.toList = some (f, l, c) ∧
      parseErrorSource s = some { file := f, line := some l, column := some c }) ∨
    (matchParen s.toList = none ∧
      ∃ f l, matchJsx s.toList = some (f, l) ∧
        parseErrorSource s = some { file := f, line := some l, column := none } ∧
        ∃ p, f = p ++ ".js" ∨ f = p ++ ".jsx") ∨
    (matchParen s.toList = none ∧ matchJsx s.toList = none ∧ parseErrorSource s = none) := by
  cases hp : matchParen s.toList with
  | some r =>
    obtain ⟨f, l, c⟩ := r
    refine Or.inl ⟨f, l, c, rfl, ?_⟩
    unfold parseErrorSource
    rw [hp]
  | none =>
    cases hj : matchJsx s.toList with
    | some r =>
      obtain ⟨f, l⟩ := r
      refine Or.inr (Or.inl ⟨rfl, f, l, rfl, ?_, matchJsx_shape _ _ _ hj⟩)
      unfold parseErrorSource
      rw [hp, hj]
    | none =>
      refine Or.inr (Or.inr ⟨rfl, rfl, ?_⟩)
      unfold parseErrorSource
      rw [hp, hj]

end Argus
